import Mathlib

/-!
Verification of the Mari PlayStation-emulator core against its
natural-language specification.  Each component the claims touch is
shallowly embedded: machine integers become `Nat` with explicit
`% 2 ^ 32` (or `% 2 ^ 16`) wherever the C++ arithmetic wraps, state
becomes explicit records, and fallible paths (the `exit(0)` fatal
error handlers) become `Option`.
-/

/- ---------------------------------------------------------------
   32-bit machine arithmetic helpers
   --------------------------------------------------------------- -/

/-- Modulus of 32-bit unsigned arithmetic. -/
def M32 : Nat := 2 ^ 32

/-- Modulus of 16-bit unsigned arithmetic. -/
def M16 : Nat := 2 ^ 16

/-- Reinterpret an unsigned 32-bit value (a `Nat` below `M32`) as a
signed two's-complement integer. -/
def toInt32 (v : Nat) : Int :=
  if v < 2 ^ 31 then (v : Int) else (v : Int) - (M32 : Int)

/-- Truncate an integer to its unsigned 32-bit representative,
mirroring a C++ cast to `u32`. -/
def toU32 (z : Int) : Nat := (z % (M32 : Int)).toNat

/-- The C++ cast chain `(u32)(i16)imm` applied to a 16-bit immediate:
sign-extension of the low halfword into 32 bits. -/
def sext16 (v : Nat) : Nat := if v < 2 ^ 15 then v else v + (M32 - M16)

/- ---------------------------------------------------------------
   CPU model (src/unnamed/part_004, the R3000A interpreter)
   --------------------------------------------------------------- -/

namespace cpu

/-- COP0 state.  Modelled from the spec: `cop0.cpp` is absent from the
snapshot (only `cop0.hpp` and the call sites exist).  Per spec section 4.4,
`enter_exception(kind)` pushes the KU/IE stack one position and writes
the kind into CAUSE's ExcCode field; SR bit 22 (BEV) selects the BIOS
exception vector; the CPU itself then sets CAUSE.BD and EPC. -/
structure Cop0 where
  kuIEStack : Nat
  excCode : Nat
  bd : Bool
  epc : Nat
  bev : Bool
  badVAddr : Nat
deriving DecidableEq, Repr

/-- Exception codes, from spec section 4.4; `Overflow` is code 12
(the `"Ov"` entry of `eNames` in the source). -/
def ExcOverflow : Nat := 12

/-- Modelled from the spec: `enter_exception(kind)` pushes the KU/IE
stack one position (the low six SR bits shift left by two, new mode =
kernel, IE = 0) and writes the kind to CAUSE's ExcCode field. -/
def enterException (e : Nat) (c : Cop0) : Cop0 :=
  { c with kuIEStack := (c.kuIEStack <<< 2) &&& 0x3F, excCode := e }

/-- CPU state: 32 GPRs plus LO (index 32) and HI (index 33), the three
program counters and the two-entry branch-delay buffer.  Register
values are unsigned 32-bit numbers. -/
structure CPU where
  regs : Nat → Nat
  pc : Nat
  npc : Nat
  cpc : Nat
  inDelaySlot0 : Bool
  inDelaySlot1 : Bool
  cop0 : Cop0

/-- Register index of LO. -/
def LO : Nat := 32

/-- Register index of HI. -/
def HI : Nat := 33

/-- Source helper `set(idx, data)`: write the register, then force
register 0 back to zero. -/
def set (idx data : Nat) (regs : Nat → Nat) : Nat → Nat :=
  fun i => if i = 0 then 0 else if i = idx then data else regs i

/-- Plain array store `regs[idx] = data` (used by DIV for LO/HI, which
bypasses `set`). -/
def wr (idx data : Nat) (regs : Nat → Nat) : Nat → Nat :=
  fun i => if i = idx then data else regs i

/-- Instruction field rd (bits 11..15). -/
def getRd (instr : Nat) : Nat := (instr >>> 11) &&& 0x1F

/-- Instruction field rs (bits 21..25). -/
def getRs (instr : Nat) : Nat := (instr >>> 21) &&& 0x1F

/-- Instruction field rt (bits 16..20). -/
def getRt (instr : Nat) : Nat := (instr >>> 16) &&& 0x1F

/-- Instruction field imm (low 16 bits). -/
def getImm (instr : Nat) : Nat := instr &&& 0xFFFF

/-- Source `raiseException(e)`: enter the exception on COP0, pick the
vector from BEV, record the branch-delay bit and EPC, clear the delay
buffer and jump to the vector.  The `setPC` zero/misalignment checks
cannot fire on the two (aligned, nonzero) vector constants, so the
vector is installed directly. -/
def raiseException (e : Nat) (s : CPU) : CPU :=
  let c1 := enterException e s.cop0
  let vector : Nat := if c1.bev then 0xBFC00180 else 0x80000080
  let c2 := { c1 with
    bd := s.inDelaySlot0,
    epc := if s.inDelaySlot0 then (s.cpc + M32 - 4) % M32 else s.cpc }
  { s with
    cop0 := c2
    inDelaySlot0 := false
    inDelaySlot1 := false
    pc := vector
    npc := (vector + 4) % M32 }

/-- Source `iADD`: 32-bit add with signed-overflow detection; on
overflow raise the Overflow exception instead of writing rd. -/
def iADD (instr : Nat) (s : CPU) : CPU :=
  let rd := getRd instr
  let rs := getRs instr
  let rt := getRt instr
  let res := (s.regs rs + s.regs rt) % M32
  if ((s.regs rs ^^^ s.regs rt) &&& 2 ^ 31) = 0 ∧
      ((s.regs rs ^^^ res) &&& 2 ^ 31) ≠ 0 then
    raiseException ExcOverflow s
  else
    { s with regs := set rd res s.regs }

/-- Source `iADDI`: add sign-extended immediate with signed-overflow
detection; on overflow raise the Overflow exception instead of writing
rt. -/
def iADDI (instr : Nat) (s : CPU) : CPU :=
  let rs := getRs instr
  let rt := getRt instr
  let imm := sext16 (getImm instr)
  let res := (s.regs rs + imm) % M32
  if ((s.regs rs ^^^ imm) &&& 2 ^ 31) = 0 ∧
      ((s.regs rs ^^^ res) &&& 2 ^ 31) ≠ 0 then
    raiseException ExcOverflow s
  else
    { s with regs := set rt res s.regs }

/-- Source `iSUB`: 32-bit subtract with signed-overflow detection; on
overflow raise the Overflow exception instead of writing rd. -/
def iSUB (instr : Nat) (s : CPU) : CPU :=
  let rd := getRd instr
  let rs := getRs instr
  let rt := getRt instr
  let res := (s.regs rs + (M32 - s.regs rt)) % M32
  if ((s.regs rs ^^^ s.regs rt) &&& 2 ^ 31) ≠ 0 ∧
      ((s.regs rs ^^^ res) &&& 2 ^ 31) ≠ 0 then
    raiseException ExcOverflow s
  else
    { s with regs := set rd res s.regs }

/-- Source `iDIV`: signed division writing LO/HI directly, with the
MIPS special cases for division by zero and INT32_MIN / -1.  The
generic branch uses C++ truncated division. -/
def iDIV (instr : Nat) (s : CPU) : CPU :=
  let rs := getRs instr
  let rt := getRt instr
  let n := toInt32 (s.regs rs)
  let d := toInt32 (s.regs rt)
  if d = 0 then
    { s with regs := wr HI (s.regs rs) (wr LO (if n < 0 then 1 else toU32 (-1)) s.regs) }
  else if n = -(2 ^ 31) ∧ d = -1 then
    { s with regs := wr HI 0 (wr LO (2 ^ 31) s.regs) }
  else
    { s with regs := wr HI (toU32 (Int.tmod n d)) (wr LO (toU32 (Int.tdiv n d)) s.regs) }

end cpu

/- ---------------------------------------------------------------
   Scheduler model (src/src/core/scheduler.cpp)
   --------------------------------------------------------------- -/

namespace scheduler

/-- Scheduler event, as in the source `struct Event`. -/
structure Event where
  id : Nat
  param : Int
  cyclesUntilEvent : Int
deriving DecidableEq, Repr

/-- Scheduler state: the live queue `events`, the staging queue
`nextEvents` and the next-deadline cache `cyclesUntilNextEvent`. -/
structure Sched where
  events : List Event
  nextEvents : List Event
  cyclesUntilNextEvent : Int
deriving DecidableEq, Repr

/-- Source `reschedule()`: recompute the next-deadline cache as the
minimum `cyclesUntilEvent` over the live queue (INT64_MAX when
empty). -/
def reschedule (s : Sched) : Sched :=
  { s with cyclesUntilNextEvent :=
      s.events.foldl (fun acc e => min acc e.cyclesUntilEvent) (2 ^ 63 - 1) }

/-- Source `addEvent`: push onto the staging queue.  The source
asserts `cyclesUntilEvent >= 0` (active in debug builds only). -/
def addEvent (id : Nat) (param : Int) (cyclesUntilEvent : Int) (s : Sched) : Sched :=
  { s with nextEvents := s.nextEvents ++ [⟨id, param, cyclesUntilEvent⟩] }

/-- Source `flush()`: move every staged event to the back of the live
queue, then reschedule.  In this snapshot `flush` is invoked from
`ps::init`, not from `processEvents`. -/
def flush (s : Sched) : Sched :=
  if s.nextEvents = [] then reschedule s
  else reschedule { s with events := s.events ++ s.nextEvents, nextEvents := [] }

/-- Source `removeEvent(id)`: erase every live event with that id. -/
def removeEvent (id : Nat) (s : Sched) : Sched :=
  { s with events := s.events.filter (fun e => e.id ≠ id) }

/-- The drain loop of `processEvents`: walk the live queue, subtract
`elapsed` from each event, erase-and-fire exactly the events whose
counter becomes zero.  Fired events are returned as
`(id, param, overshoot)` triples in queue order, the arguments handed
to `registeredFuncs[id]`; the overshoot passed is the decremented
counter itself, i.e. zero at every fire.  The source asserts
`cyclesUntilEvent >= 0` after the decrement (debug builds only); in
release semantics an event whose counter skips past zero stays queued
with a negative counter and never fires. -/
def drain (elapsed : Int) : List Event → List Event × List (Nat × Int × Int)
  | [] => ([], [])
  | e :: rest =>
      let c := e.cyclesUntilEvent - elapsed
      let r := drain elapsed rest
      if c = 0 then (r.1, (e.id, e.param, c) :: r.2)
      else ({ e with cyclesUntilEvent := c } :: r.1, r.2)

/-- Source `processEvents(elapsedCycles)`: decrement the deadline
cache and drain the live queue.  The staging queue is not touched. -/
def processEvents (elapsed : Int) (s : Sched) : Sched × List (Nat × Int × Int) :=
  let r := drain elapsed s.events
  ({ s with
      events := r.1
      cyclesUntilNextEvent := s.cyclesUntilNextEvent - elapsed }, r.2)

end scheduler

/- ---------------------------------------------------------------
   DMA controller, OTC channel (src/src/core/dmac/dmac.cpp)
   --------------------------------------------------------------- -/

namespace dmac

/-- The OTC burst loop of `doOTC`, as the list of `(address, data)`
word writes it issues to the bus, in order.  The loop counter runs
from `BCR.size` down to 1; every slot except the last receives the
decremented address (32-bit wrap), the last receives the terminator
`0xFFFFFF`; `MADR` decrements by 4 after every write. -/
def otcLoop : Nat → Nat → List (Nat × Nat)
  | _, 0 => []
  | madr, i + 1 =>
      let data := if i + 1 ≠ 1 then (madr + M32 - 4) % M32 else 0xFFFFFF
      (madr, data) :: otcLoop ((madr + M32 - 4) % M32) i

/-- RAM projection of `bus::write32`: a word store lands in the 2 MiB
RAM exactly when the address decodes to the RAM region; every other
region of the dispatch (peripheral registers, the fatal default)
leaves RAM unchanged.  RAM is modelled at word granularity, keyed by
byte address — faithful for the stride-4 accesses at issue. -/
def ramWrite32 (ram : Nat → Nat) (addr data : Nat) : Nat → Nat :=
  if addr < 0x200000 then Function.update ram addr data else ram

/-- Apply a list of word writes to RAM through the bus dispatch, in
order. -/
def applyWrites (ws : List (Nat × Nat)) (ram : Nat → Nat) : Nat → Nat :=
  ws.foldl (fun r p => ramWrite32 r p.1 p.2) ram

/-- Source `doOTC`: the RAM contents after the OTC burst of
`size` words starting at `madr`.  (The function also schedules the
transfer-end event and clears BCR; those effects do not touch RAM.) -/
def doOTC (madr size : Nat) (ram : Nat → Nat) : Nat → Nat :=
  applyWrites (otcLoop madr size) ram

end dmac

/- ---------------------------------------------------------------
   Timers (src/unnamed/part_008; both revisions of timer.cpp)
   --------------------------------------------------------------- -/

namespace timer

/-- Timer mode register fields, as in `struct Mode`. -/
structure Mode where
  gate : Bool
  gats : Nat
  zret : Bool
  cmpe : Bool
  ovfe : Bool
  rept : Bool
  levl : Bool
  clks : Nat
  intf : Bool
  equf : Bool
  ovff : Bool
deriving DecidableEq, Repr

/-- Timer channel state, as in `struct Timer`.  `count` is `u32` in
the source and is masked to 16 bits after every tick; `comp`,
`subcount` and `prescaler` are `u16`.  `isPaused` exists only in the
first revision; the second revision never reads it. -/
structure Timer where
  mode : Mode
  count : Nat
  comp : Nat
  subcount : Nat
  prescaler : Nat
  isPaused : Bool
deriving DecidableEq, Repr

/-- State after `timer::init()`: everything zeroed, prescaler 1. -/
def initTimer : Timer :=
  { mode := { gate := false, gats := 0, zret := false, cmpe := false,
              ovfe := false, rept := false, levl := false, clks := 0,
              intf := false, equf := false, ovff := false }
    count := 0, comp := 0, subcount := 0, prescaler := 1, isPaused := false }

/-- The three timer channels. -/
structure Timers where
  t0 : Timer
  t1 : Timer
  t2 : Timer
deriving DecidableEq, Repr

/-- Channel lookup. -/
def getT (ts : Timers) : Nat → Timer
  | 0 => ts.t0
  | 1 => ts.t1
  | _ => ts.t2

/-- Channel store. -/
def setT (ts : Timers) (chn : Nat) (t : Timer) : Timers :=
  match chn with
  | 0 => { ts with t0 := t }
  | 1 => { ts with t1 := t }
  | _ => { ts with t2 := t }

/-- Source `getTimer(addr)`: channel from bits 4..11 of the address;
any other window is a fatal error. -/
def getTimer (addr : Nat) : Option Nat :=
  match (addr >>> 4) &&& 0xFF with
  | 0x10 => some 0
  | 0x11 => some 1
  | 0x12 => some 2
  | _ => none

/-- The register selector `(addr & ~0xFF0) | (1 << 8)` used by the
source to fold the three channel windows onto the timer-0 register
addresses. -/
def regSel (addr : Nat) : Nat := (addr &&& 0xFFFFF00F) ||| (1 <<< 8)

/-- Source `sendInterrupt` restricted to the owning timer's mode: the
INTC interrupt fires iff `intf` is set; repeat+level mode toggles
`intf`, otherwise `intf` clears.  Returns the new mode and whether
`intc::sendInterrupt` was invoked. -/
def sendInterrupt (m : Mode) : Mode × Bool :=
  if m.rept ∧ m.levl then ({ m with intf := !m.intf }, m.intf)
  else ({ m with intf := false }, m.intf)

/-- Decode of a 16-bit MODE write into mode fields: `intf` is always
reset to 1, `equf` and `ovff` are untouched. -/
def decodeMode (data : Nat) (m0 : Mode) : Mode :=
  { gate := data &&& 1 ≠ 0
    gats := (data >>> 1) &&& 3
    zret := data &&& 8 ≠ 0
    cmpe := data &&& 16 ≠ 0
    ovfe := data &&& 32 ≠ 0
    rept := data &&& 64 ≠ 0
    levl := data &&& 128 ≠ 0
    clks := (data >>> 8) &&& 3
    intf := true
    equf := m0.equf
    ovff := m0.ovff }

/-- The gate handling of a MODE write (first revision): `isPaused` is
cleared then set by the gate tables; a timer-0 gate is fatal
(`exit(0)`, modelled as `none`). -/
def modePaused (chn : Nat) (m : Mode) : Option Bool :=
  if m.gate then
    match chn with
    | 0 => none
    | 1 =>
      match m.gats with
      | 0 => some false
      | 1 => some false
      | 2 => some true
      | _ => some true
    | _ =>
      match m.gats with
      | 0 => some true
      | 3 => some true
      | _ => some false
  else some false

/-- The prescaler handling of a MODE write (first revision): a nonzero
clock select loads timer 2's prescaler with 1 (clks = 1) or 8
(clks = 2, 3), leaves timer 1 alone, and is fatal on timer 0. -/
def modePrescaler (chn : Nat) (m : Mode) (old : Nat) : Option Nat :=
  if m.clks ≠ 0 then
    match chn with
    | 1 => some old
    | 2 => some (1 + 7 * (if 1 < m.clks then 1 else 0))
    | _ => none
  else some old

/-- MODE write, first revision of `timer.cpp`: decode the fields,
run the gate and clock-select handling (either can be fatal), and
always clear `subcount` and `count`. -/
def writeMODE (chn data : Nat) (t : Timer) : Option Timer :=
  (modePaused chn (decodeMode data t.mode)).bind (fun paused =>
    (modePrescaler chn (decodeMode data t.mode) t.prescaler).bind (fun pres =>
      some { t with mode := decodeMode data t.mode, isPaused := paused,
                    prescaler := pres, subcount := 0, count := 0 }))

/-- The prescaler handling of a MODE write (second revision): a
nonzero clock select is handled for timer 2 only. -/
def modePrescalerv2 (chn : Nat) (m : Mode) (old : Nat) : Option Nat :=
  if m.clks ≠ 0 then
    if chn = 2 then some (1 + 7 * (if 1 < m.clks then 1 else 0))
    else none
  else some old

/-- MODE write, second revision of `timer.cpp`: any gate is fatal;
`subcount` and `count` are always cleared (`isPaused` does not exist
there and is left untouched). -/
def writeMODEv2 (chn data : Nat) (t : Timer) : Option Timer :=
  if (decodeMode data t.mode).gate then none
  else
    (modePrescalerv2 chn (decodeMode data t.mode) t.prescaler).bind (fun pres =>
      some { t with mode := decodeMode data t.mode, prescaler := pres,
                    subcount := 0, count := 0 })

/-- Register write for one channel, first revision: COUNT stores the
halfword, MODE goes through `writeMODE`, COMP stores the halfword and
re-sets `intf` unless in level mode. -/
def writeReg (chn addr data : Nat) (t : Timer) : Option Timer :=
  if regSel addr = 0x1F801100 then some { t with count := data }
  else if regSel addr = 0x1F801104 then writeMODE chn data t
  else if regSel addr = 0x1F801108 then
    some { t with comp := data,
                  mode := if ¬ t.mode.levl then { t.mode with intf := true }
                          else t.mode }
  else none

/-- Source `timer::write(addr, data)` (first revision), over the three
channels; the data is a `u16`. -/
def write (addr data : Nat) (ts : Timers) : Option Timers :=
  (getTimer addr).bind (fun chn =>
    (writeReg chn addr (data % M16) (getT ts chn)).bind (fun t =>
      some (setT ts chn t)))

/-- Register write for one channel, second revision (MODE semantics
differ). -/
def writeRegv2 (chn addr data : Nat) (t : Timer) : Option Timer :=
  if regSel addr = 0x1F801100 then some { t with count := data }
  else if regSel addr = 0x1F801104 then writeMODEv2 chn data t
  else if regSel addr = 0x1F801108 then
    some { t with comp := data,
                  mode := if ¬ t.mode.levl then { t.mode with intf := true }
                          else t.mode }
  else none

/-- Source `timer::write(addr, data)` (second revision). -/
def writev2 (addr data : Nat) (ts : Timers) : Option Timers :=
  (getTimer addr).bind (fun chn =>
    (writeRegv2 chn addr (data % M16) (getT ts chn)).bind (fun t =>
      some (setT ts chn t)))

/-- One iteration of the `while (subcount > prescaler)` body:
increment `count`, deliver the overflow interrupt on the 2^16 carry
(edge-triggered through `ovff`), deliver the compare interrupt on
`count == comp` (edge-triggered through `equf`, zero-return optional),
mask `count` to 16 bits, consume one prescaled tick.  Returns the
timer and whether `intc::sendInterrupt` ran. -/
def tickBody (t : Timer) : Timer × Bool :=
  let c1 := t.count + 1
  let r1 : Timer × Bool :=
    if c1 &&& (1 <<< 16) ≠ 0 ∧ t.mode.ovfe ∧ ¬ t.mode.ovff then
      let s := sendInterrupt { t.mode with ovff := true }
      ({ t with mode := s.1, count := c1 }, s.2)
    else ({ t with count := c1 }, false)
  let t1 := r1.1
  let r2 : Timer × Bool :=
    if t1.count = t1.comp then
      let r : Timer × Bool :=
        if t1.mode.cmpe ∧ ¬ t1.mode.equf then
          let s := sendInterrupt { t1.mode with equf := true }
          ({ t1 with mode := s.1 }, s.2)
        else (t1, false)
      if r.1.mode.zret then ({ r.1 with count := 0 }, r.2) else r
    else (t1, false)
  let t2 := r2.1
  ({ t2 with count := t2.count &&& 0xFFFF, subcount := t2.subcount - t2.prescaler },
    r1.2 || r2.2)

/-- The prescaler drain loop, with explicit fuel.  Each iteration
consumes `prescaler ≥ 1` from `subcount`, so `subcount` itself bounds
the iteration count; a zero prescaler would loop forever in the
source. -/
def tickLoop : Nat → Timer → Bool → Timer × Bool
  | 0, t, irq => (t, irq)
  | fuel + 1, t, irq =>
      if t.prescaler < t.subcount then
        let r := tickBody t
        tickLoop fuel r.1 (irq || r.2)
      else (t, irq)

/-- Source `timer::step(c)` for one channel of index `i` (first
revision): timers 0 and 1 skip when their clock select is odd (their
ticks then come from HBLANK/dot clock), paused timers skip, otherwise
`subcount += c` (16-bit) and the prescaler loop runs. -/
def stepTimer (i c : Nat) (t : Timer) : Timer × Bool :=
  if (t.mode.clks &&& 1 = 1) ∧ (i = 0 ∨ i = 1) then (t, false)
  else if t.isPaused then (t, false)
  else
    let sub := (t.subcount + c) % M16
    tickLoop sub { t with subcount := sub } false

/-- Source `timer::step(c)` over the three channels; the Bool records
whether any channel raised an INTC interrupt. -/
def step (c : Nat) (ts : Timers) : Timers × Bool :=
  let r0 := stepTimer 0 c ts.t0
  let r1 := stepTimer 1 c ts.t1
  let r2 := stepTimer 2 c ts.t2
  (⟨r0.1, r1.1, r2.1⟩, r0.2 || r1.2 || r2.2)

/-- Source `gateVBLANKStart` (first revision): VBLANK-start gate
actions on timer 1. -/
def gateVBLANKStart (t : Timer) : Timer :=
  if ¬ t.mode.gate then t
  else
    match t.mode.gats with
    | 0 => { t with isPaused := true }
    | 1 => { t with count := 0 }
    | 2 => { t with count := 0, isPaused := false }
    | _ => { t with isPaused := false }

/-- Source `gateVBLANKEnd` (first revision): VBLANK-end gate actions
on timer 1. -/
def gateVBLANKEnd (t : Timer) : Timer :=
  if ¬ t.mode.gate then t
  else
    match t.mode.gats with
    | 0 => { t with isPaused := false }
    | 2 => { t with isPaused := true }
    | _ => t

end timer

/- ---------------------------------------------------------------
   Interrupt controller (src/src/core/intc.cpp)
   --------------------------------------------------------------- -/

namespace intc

/-- Interrupt source numbers, in declaration order of `enum Interrupt`
(VBLANK is 0). -/
def VBLANK : Nat := 0

/-- Source `sendInterrupt(i)` effect on I_STAT: set the source's bit.
(The pending line `I_STAT & I_MASK` is then republished to COP0.) -/
def sendInterrupt (i istat : Nat) : Nat := istat ||| (1 <<< i)

end intc

/- ---------------------------------------------------------------
   GPU (src/src/core/gpu/gpu.cpp)
   --------------------------------------------------------------- -/

namespace gpu

/-- NTSC scanline length in CPU cycles. -/
def CYCLES_PER_SCANLINE : Int := 3413

/-- Scanlines of visible vertical draw. -/
def SCANLINES_PER_VDRAW : Int := 240

/-- Scanlines per frame. -/
def SCANLINES_PER_FRAME : Int := 262

/-- State read and written by a scanline event. -/
structure ScanState where
  lineCounter : Int
  iStat : Nat
  timer1 : timer.Timer
deriving Repr

/-- Result of one scanline event: the new state, whether the host
present hook `update(vram)` ran, and the cycle count of the re-armed
scanline event. -/
structure ScanResult where
  lineCounter : Int
  iStat : Nat
  timer1 : timer.Timer
  presented : Bool
  rearmCycles : Int
deriving Repr

/-- Source `scanlineEvent(c)`: increment the line counter; at line 240
raise VBLANK through the INTC, run the VBLANK-start timer gate and
present the framebuffer; at line 262 run the VBLANK-end gate and reset
the counter; always re-arm the event `CYCLES_PER_SCANLINE + c` cycles
out. -/
def scanlineEvent (c : Int) (s : ScanState) : ScanResult :=
  let lc := s.lineCounter + 1
  if lc = SCANLINES_PER_VDRAW then
    { lineCounter := lc
      iStat := intc.sendInterrupt intc.VBLANK s.iStat
      timer1 := timer.gateVBLANKStart s.timer1
      presented := true
      rearmCycles := CYCLES_PER_SCANLINE + c }
  else if lc = SCANLINES_PER_FRAME then
    { lineCounter := 0
      iStat := s.iStat
      timer1 := timer.gateVBLANKEnd s.timer1
      presented := false
      rearmCycles := CYCLES_PER_SCANLINE + c }
  else
    { lineCounter := lc
      iStat := s.iStat
      timer1 := s.timer1
      presented := false
      rearmCycles := CYCLES_PER_SCANLINE + c }

/-- 2D vertex as in `struct Vertex`: coordinates already sign-extended
to signed integers, 24-bit colour, packed texture coordinate.  The
source stores `i32`; coordinates reaching the rasterizer are 11-bit
sign-extended values plus an 11-bit signed offset, so the `i32`
arithmetic below never wraps and unbounded `Int` is faithful. -/
structure Vertex where
  x : Int
  y : Int
  c : Nat
  tex : Nat
deriving DecidableEq, Repr

/-- Source `edgeFunction(a, b, c)`. -/
def edgeFunction (a b c : Vertex) : Int :=
  (b.x - a.x) * (c.y - a.y) - (b.y - a.y) * (c.x - a.x)

/-- Drawing area, as set by GP0(E3)/GP0(E4). -/
structure XYArea where
  x0 : Int
  x1 : Int
  y0 : Int
  y1 : Int
deriving DecidableEq, Repr

/-- Drawing offset, as set by GP0(E5). -/
structure XYOffset where
  xofs : Int
  yofs : Int
deriving DecidableEq, Repr

/-- Texture window, as set by GP0(E2). -/
structure TexWindow where
  maskX : Nat
  maskY : Nat
  ofsX : Nat
  ofsY : Nat
deriving DecidableEq, Repr

/-- Source `toBGR555`. -/
def toBGR555 (c : Nat) : Nat :=
  (((c >>> 19) &&& 0x1F) <<< 10) ||| (((c >>> 11) &&& 0x1F) <<< 5) ||| ((c >>> 3) &&& 0x1F)

/-- GP0(E3) Set Drawing Area top left: the decode of the data word. -/
def setDrawAreaTopLeft (data : Nat) (a : XYArea) : XYArea :=
  { a with x0 := ((data >>> 0) &&& 0x3FF : Nat), y0 := ((data >>> 10) &&& 0x1FF : Nat) }

/-- GP0(E4) Set Drawing Area bottom right: the decode of the data
word. -/
def setDrawAreaBottomRight (data : Nat) (a : XYArea) : XYArea :=
  { a with x1 := ((data >>> 0) &&& 0x3FF : Nat), y1 := ((data >>> 10) &&& 0x1FF : Nat) }

/-- The C++ `i32` division `v / d` on a 32-bit bit pattern `v`
(truncated signed division, result cast back to `u32`). -/
def i32div (v d : Nat) : Nat := toU32 (Int.tdiv (toInt32 v) d)

/-- Source `fetchTex(texX, texY, texPage, clut)`: apply the texture
window, locate the texel for the page's depth (4/8/16 bpp), then
resolve 4- and 8-bit texels through the CLUT.  `texX`/`texY` are the
32-bit bit patterns of the C++ `i32` arguments; VRAM is a function
from linear index to 16-bit texel. -/
def fetchTex (vram : Nat → Nat) (tw : TexWindow) (texX0 texY0 texPage clut : Nat) : Nat :=
  let texX := (texX0 &&& ((M32 - 1) ^^^ tw.maskX)) ||| (tw.ofsX &&& tw.maskX)
  let texY := (texY0 &&& ((M32 - 1) ^^^ tw.maskY)) ||| (tw.ofsY &&& tw.maskY)
  let texPageX := texPage &&& 0xF
  let texPageY := 256 * ((texPage >>> 4) &&& 1)
  let depthSel := (texPage >>> 7) &&& 3
  let depth := if depthSel = 0 then 4 else if depthSel = 1 then 8
               else if depthSel = 2 then 16 else 0
  let x :=
    if depth = 4 then toU32 (64 * (texPageX : Int) + Int.tdiv (toInt32 texX) 4)
    else if depth = 8 then toU32 (64 * (texPageX : Int) + Int.tdiv (toInt32 texX) 2)
    else if depth = 16 then (64 * texPageX + texX) % M32
    else 0
  let y := (texPageY + texY) % M32
  let texel := vram ((x + 1024 * y) % M32)
  if depth = 16 then texel
  else
    let clutX := 16 * (clut &&& 0x3F)
    let clutY := (clut >>> 6) &&& 0x1FF
    let clutOfs :=
      if depth = 4 then (texel >>> (4 * (texX &&& 3))) &&& 0xF
      else (texel >>> (8 * (texX &&& 1))) &&& 0xFF
    vram ((clutX + clutOfs + 1024 * clutY) % M32)

/-- The pixel coordinates a C++ loop `for (v = lo; v < hi; v++)`
visits, in order. -/
def intRange (lo hi : Int) : List Int :=
  (List.range (hi - lo).toNat).map (fun (n : Nat) => lo + (n : Int))

/-- Source `drawFlatTri(v0, v1, v2, color)`: canonicalize the winding
order, apply the drawing offset, clip the bounding box against the
drawing area, and emit one `drawPixel` per box pixel whose three edge
functions are non-negative.  The result is the ordered list of
`(x, y, bgr555)` VRAM writes. -/
def drawFlatTri (area : XYArea) (ofs : XYOffset) (v0 v1 v2 : Vertex) (color : Nat) :
    List (Int × Int × Nat) :=
  let bc : Vertex × Vertex :=
    if edgeFunction v0 v1 v2 < 0 then (v2, v1) else (v1, v2)
  let a := { v0 with x := v0.x + ofs.xofs, y := v0.y + ofs.yofs }
  let b := { bc.1 with x := bc.1.x + ofs.xofs, y := bc.1.y + ofs.yofs }
  let c := { bc.2 with x := bc.2.x + ofs.xofs, y := bc.2.y + ofs.yofs }
  let xMin := max (min a.x (min b.x c.x)) area.x0
  let yMin := max (min a.y (min b.y c.y)) area.y0
  let xMax := min (max a.x (max b.x c.x)) area.x1
  let yMax := min (max a.y (max b.y c.y)) area.y1
  let col := toBGR555 color
  (intRange yMin yMax).flatMap (fun py =>
    (intRange xMin xMax).filterMap (fun px =>
      let p : Vertex := ⟨px, py, 0, 0⟩
      let w0 := edgeFunction b c p
      let w1 := edgeFunction c a p
      let w2 := edgeFunction a b p
      if 0 ≤ w0 ∧ 0 ≤ w1 ∧ 0 ≤ w2 then some (px, py, col) else none))

/-- One interpolated colour channel of the Gouraud shader: the C++
expression mixes the `i32` weights into `u32` arithmetic, so each
product, the sum and the division by `area` are 32-bit unsigned
(division by a zero area is undefined behaviour in the source;
`Nat` division returns 0 there). -/
def shadeChannel (w0 w1 w2 : Int) (area : Int) (ca cb cc : Nat) : Nat :=
  ((toU32 w0 * ca + toU32 w1 * cb + toU32 w2 * cc) % M32) / toU32 area

/-- Source `drawShadedTri(v0, v1, v2)`: as `drawFlatTri`, with the
colour interpolated per pixel from the three vertex colours by
barycentric weights over the signed area, then converted to BGR555 by
`drawPixel<true>`. -/
def drawShadedTri (area : XYArea) (ofs : XYOffset) (v0 v1 v2 : Vertex) :
    List (Int × Int × Nat) :=
  let bc : Vertex × Vertex :=
    if edgeFunction v0 v1 v2 < 0 then (v2, v1) else (v1, v2)
  let a := { v0 with x := v0.x + ofs.xofs, y := v0.y + ofs.yofs }
  let b := { bc.1 with x := bc.1.x + ofs.xofs, y := bc.1.y + ofs.yofs }
  let c := { bc.2 with x := bc.2.x + ofs.xofs, y := bc.2.y + ofs.yofs }
  let sArea := edgeFunction a b c
  let xMin := max (min a.x (min b.x c.x)) area.x0
  let yMin := max (min a.y (min b.y c.y)) area.y0
  let xMax := min (max a.x (max b.x c.x)) area.x1
  let yMax := min (max a.y (max b.y c.y)) area.y1
  (intRange yMin yMax).flatMap (fun py =>
    (intRange xMin xMax).filterMap (fun px =>
      let p : Vertex := ⟨px, py, 0, 0⟩
      let w0 := edgeFunction b c p
      let w1 := edgeFunction c a p
      let w2 := edgeFunction a b p
      if 0 ≤ w0 ∧ 0 ≤ w1 ∧ 0 ≤ w2 then
        let cr := shadeChannel w0 w1 w2 sArea ((a.c >>> 0) &&& 0xFF) ((b.c >>> 0) &&& 0xFF) ((c.c >>> 0) &&& 0xFF)
        let cg := shadeChannel w0 w1 w2 sArea ((a.c >>> 8) &&& 0xFF) ((b.c >>> 8) &&& 0xFF) ((c.c >>> 8) &&& 0xFF)
        let cb := shadeChannel w0 w1 w2 sArea ((a.c >>> 16) &&& 0xFF) ((b.c >>> 16) &&& 0xFF) ((c.c >>> 16) &&& 0xFF)
        some (px, py, toBGR555 ((cb <<< 16) ||| (cg <<< 8) ||| cr))
      else none))

/-- Source `drawTexturedTri(v0, v1, v2, clut, texPage)`: as
`drawFlatTri`, with per-pixel texture coordinates interpolated in
32-bit unsigned arithmetic, the texel fetched through `fetchTex`, and
texel value 0 transparent (no write). -/
def drawTexturedTri (vram : Nat → Nat) (tw : TexWindow) (area : XYArea) (ofs : XYOffset)
    (v0 v1 v2 : Vertex) (clut texPage : Nat) : List (Int × Int × Nat) :=
  let bc : Vertex × Vertex :=
    if edgeFunction v0 v1 v2 < 0 then (v2, v1) else (v1, v2)
  let a := { v0 with x := v0.x + ofs.xofs, y := v0.y + ofs.yofs }
  let b := { bc.1 with x := bc.1.x + ofs.xofs, y := bc.1.y + ofs.yofs }
  let c := { bc.2 with x := bc.2.x + ofs.xofs, y := bc.2.y + ofs.yofs }
  let sArea := edgeFunction a b c
  let xMin := max (min a.x (min b.x c.x)) area.x0
  let yMin := max (min a.y (min b.y c.y)) area.y0
  let xMax := min (max a.x (max b.x c.x)) area.x1
  let yMax := min (max a.y (max b.y c.y)) area.y1
  (intRange yMin yMax).flatMap (fun py =>
    (intRange xMin xMax).filterMap (fun px =>
      let p : Vertex := ⟨px, py, 0, 0⟩
      let w0 := edgeFunction b c p
      let w1 := edgeFunction c a p
      let w2 := edgeFunction a b p
      if 0 ≤ w0 ∧ 0 ≤ w1 ∧ 0 ≤ w2 then
        let texX := shadeChannel w0 w1 w2 sArea ((a.tex >>> 0) &&& 0xFF) ((b.tex >>> 0) &&& 0xFF) ((c.tex >>> 0) &&& 0xFF)
        let texY := shadeChannel w0 w1 w2 sArea ((a.tex >>> 8) &&& 0xFF) ((b.tex >>> 8) &&& 0xFF) ((c.tex >>> 8) &&& 0xFF)
        let color := fetchTex vram tw texX texY texPage clut
        if color = 0 then none else some (px, py, color)
      else none))

/-- Source `drawFlatRect(v, w, h, color)`: offset the corner, clip
`[x, x+w) × [y, y+h)` against the drawing area, fill with the raw
colour. -/
def drawFlatRect (area : XYArea) (ofs : XYOffset) (v : Vertex) (w h : Int) (color : Nat) :
    List (Int × Int × Nat) :=
  let ax := v.x + ofs.xofs
  let ay := v.y + ofs.yofs
  let xMin := max ax area.x0
  let yMin := max ay area.y0
  let xMax := min (xMin + w) area.x1
  let yMax := min (yMin + h) area.y1
  (intRange yMin yMax).flatMap (fun py =>
    (intRange xMin xMax).map (fun px => (px, py, color)))

/-- Source `drawTexturedRect(v, w, h, clut)`: as `drawFlatRect`, the
texel fetched at the vertex texture coordinate advanced by the
per-row/per-column counters (`xc = x - xMin`, `yc = y - yMin`), using
the global draw mode as texture page; texel value 0 transparent. -/
def drawTexturedRect (vram : Nat → Nat) (tw : TexWindow) (area : XYArea) (ofs : XYOffset)
    (v : Vertex) (w h : Int) (clut drawMode : Nat) : List (Int × Int × Nat) :=
  let ax := v.x + ofs.xofs
  let ay := v.y + ofs.yofs
  let xMin := max ax area.x0
  let yMin := max ay area.y0
  let xMax := min (xMin + w) area.x1
  let yMax := min (yMin + h) area.y1
  let texX := (v.tex >>> 0) &&& 0xFF
  let texY := (v.tex >>> 8) &&& 0xFF
  (intRange yMin yMax).flatMap (fun py =>
    (intRange xMin xMax).filterMap (fun px =>
      let color := fetchTex vram tw ((texX + (px - xMin).toNat) % M32)
        ((texY + (py - yMin).toNat) % M32) drawMode clut
      if color = 0 then none else some (px, py, color)))

end gpu

/- ---------------------------------------------------------------
   Bus (src/unnamed/part_002, bus.cpp): byte access dispatch
   --------------------------------------------------------------- -/

namespace bus

/-- Bus-owned memory and the expansion-region registers that take part
in the 8-bit dispatch.  After `init`, `exp1Base = exp2Base =
0x1F000000` and both sizes are 0; EXP base writes only replace the low
24 bits, so both bases always stay at or above `0x1F000000`. -/
structure Bus where
  ram : Nat → Nat
  spram : Nat → Nat
  bios : Nat → Nat
  exp1Base : Nat
  exp1Size : Nat
  exp2Base : Nat
  exp2Size : Nat

/-- Source `inRange(addr, base, size)` (all operands widened to
`u64`, so no wrap). -/
def inRange (addr base size : Nat) : Bool :=
  decide (base ≤ addr) && decide (addr < base + size)

/-- Result of an 8-bit bus read: a value produced directly from
bus-owned memory, a delegation to a peripheral's read handler, or the
fatal `exit(0)` default. -/
inductive Read8Result where
  | val (v : Nat)
  | sio
  | dmac
  | cdrom
  | fatal
deriving DecidableEq, Repr

/-- Source `bus::read8(addr)`: EXP1 reads return 0; RAM is served only
for `addr < 0x200000` (no mirroring of the 2 MiB into the 8 MiB
window); then scratchpad, SIO, DMA, BIOS, the four CDROM registers;
anything else is fatal. -/
def read8 (st : Bus) (addr : Nat) : Read8Result :=
  if inRange addr st.exp1Base st.exp1Size then .val 0
  else if inRange addr 0 0x200000 then .val (st.ram addr)
  else if inRange addr 0x1F800000 0x400 then .val (st.spram (addr &&& 0x3FF))
  else if inRange addr 0x1F801040 0x20 then .sio
  else if inRange addr 0x1F801080 0x80 then .dmac
  else if inRange addr 0x1FC00000 0x80000 then .val (st.bios (addr - 0x1FC00000))
  else if addr = 0x1F801800 ∨ addr = 0x1F801801 ∨ addr = 0x1F801802 ∨ addr = 0x1F801803 then
    .cdrom
  else .fatal

/-- Source `bus::write8(addr, data)`: EXP2 writes are logged and
dropped; RAM is written only for `addr < 0x200000`; then scratchpad,
SIO, DMA, the four CDROM registers (none of which touch bus-owned
memory); anything else is the fatal default, modelled as `none`. -/
def write8 (st : Bus) (addr data : Nat) : Option Bus :=
  if inRange addr st.exp2Base st.exp2Size then some st
  else if inRange addr 0 0x200000 then
    some { st with ram := Function.update st.ram addr data }
  else if inRange addr 0x1F800000 0x400 then
    some { st with spram := Function.update st.spram (addr &&& 0x3FF) data }
  else if inRange addr 0x1F801040 0x20 then some st
  else if inRange addr 0x1F801080 0x80 then some st
  else if addr = 0x1F801800 ∨ addr = 0x1F801801 ∨ addr = 0x1F801802 ∨ addr = 0x1F801803 then
    some st
  else none

end bus

/- ---------------------------------------------------------------
   CDROM interrupt flags (src/src/core/cdrom/cdrom.cpp)
   --------------------------------------------------------------- -/

namespace cdrom

/-- Source `sendIRQEvent(irq)` effect on the interrupt-flag register:
OR the INT class number in.  (The CDROM INTC line is pulsed when
`iEnable & iFlags` is nonzero.) -/
def sendIRQEvent (irq iFlags : Nat) : Nat := iFlags ||| irq

/-- Source IFR acknowledge write `iFlags &= (~data & 0x1F)`: the
two's-complement negation restricted to the low five bits is the XOR
with `0x1F`. -/
def ackIFR (data iFlags : Nat) : Nat := iFlags &&& (0x1F ^^^ (data &&& 0x1F))

/-- The `(cycles, INT class)` pairs `cmdGetID` hands to the scheduler:
INT3 after 30000 cycles, INT2 after 50000. -/
def getIDIRQs : List (Nat × Nat) := [(30000, 3), (50000, 2)]

/-- The `(cycles, INT class)` pairs `cmdInit` hands to the scheduler:
INT3 after 80000 cycles, INT2 after 110000. -/
def initIRQs : List (Nat × Nat) := [(80000, 3), (110000, 2)]

/-- The interrupt-flag register at time `t` after a command, when
software performs no IFR write: every scheduled `sendIRQEvent` whose
deadline has passed has ORed its class in. -/
def iFlagsAt (evs : List (Nat × Nat)) (t f0 : Nat) : Nat :=
  evs.foldl (fun f ev => if ev.1 ≤ t then sendIRQEvent ev.2 f else f) f0

end cdrom

/- ---------------------------------------------------------------
   Shared bit-level lemmas
   --------------------------------------------------------------- -/

/-- The source's sign test: `(a ^ b) & (1 << 31)` is zero exactly when
the two 32-bit sign bits agree. -/
lemma sign_and_iff (a b : Nat) :
    ((a ^^^ b) &&& 2 ^ 31 = 0) ↔ a.testBit 31 = b.testBit 31 := by
  rw [Nat.and_two_pow, Nat.testBit_xor]
  rcases ha : a.testBit 31 <;> rcases hb : b.testBit 31 <;> simp

/- ---------------------------------------------------------------
   C1: ADD/ADDI/SUB overflow behaviour
   --------------------------------------------------------------- -/

/-- C1: for every pair of 32-bit operands whose signs agree while the
sign of the 32-bit sum differs (for SUB: whose signs differ while the
sign of the 32-bit difference differs from the minuend's), ADD, ADDI
and SUB raise the Overflow exception and leave the destination
register at its pre-instruction value. -/
theorem c1_add_sub_overflow :
    (∀ (instr : Nat) (s : cpu.CPU),
      s.regs (cpu.getRs instr) < M32 → s.regs (cpu.getRt instr) < M32 →
      (s.regs (cpu.getRs instr)).testBit 31 = (s.regs (cpu.getRt instr)).testBit 31 →
      (s.regs (cpu.getRs instr)).testBit 31 ≠
        (((s.regs (cpu.getRs instr) + s.regs (cpu.getRt instr)) % M32).testBit 31) →
      (cpu.iADD instr s).regs (cpu.getRd instr) = s.regs (cpu.getRd instr) ∧
      (cpu.iADD instr s).cop0.excCode = cpu.ExcOverflow) ∧
    (∀ (instr : Nat) (s : cpu.CPU),
      s.regs (cpu.getRs instr) < M32 →
      (s.regs (cpu.getRs instr)).testBit 31 = (sext16 (cpu.getImm instr)).testBit 31 →
      (s.regs (cpu.getRs instr)).testBit 31 ≠
        (((s.regs (cpu.getRs instr) + sext16 (cpu.getImm instr)) % M32).testBit 31) →
      (cpu.iADDI instr s).regs (cpu.getRt instr) = s.regs (cpu.getRt instr) ∧
      (cpu.iADDI instr s).cop0.excCode = cpu.ExcOverflow) ∧
    (∀ (instr : Nat) (s : cpu.CPU),
      s.regs (cpu.getRs instr) < M32 → s.regs (cpu.getRt instr) < M32 →
      (s.regs (cpu.getRs instr)).testBit 31 ≠ (s.regs (cpu.getRt instr)).testBit 31 →
      (s.regs (cpu.getRs instr)).testBit 31 ≠
        (((s.regs (cpu.getRs instr) + (M32 - s.regs (cpu.getRt instr))) % M32).testBit 31) →
      (cpu.iSUB instr s).regs (cpu.getRd instr) = s.regs (cpu.getRd instr) ∧
      (cpu.iSUB instr s).cop0.excCode = cpu.ExcOverflow) := by
  refine ⟨?_, ?_, ?_⟩
  · intro instr s _ _ h1 h2
    have hc1 : ((s.regs (cpu.getRs instr) ^^^ s.regs (cpu.getRt instr)) &&& 2 ^ 31) = 0 :=
      (sign_and_iff _ _).mpr h1
    have hc2 : ((s.regs (cpu.getRs instr) ^^^
        (s.regs (cpu.getRs instr) + s.regs (cpu.getRt instr)) % M32) &&& 2 ^ 31) ≠ 0 :=
      fun hh => h2 ((sign_and_iff _ _).mp hh)
    norm_num at hc1 hc2
    simp [cpu.iADD, hc1, hc2, cpu.raiseException, cpu.enterException]
  · intro instr s _ h1 h2
    have hc1 : ((s.regs (cpu.getRs instr) ^^^ sext16 (cpu.getImm instr)) &&& 2 ^ 31) = 0 :=
      (sign_and_iff _ _).mpr h1
    have hc2 : ((s.regs (cpu.getRs instr) ^^^
        (s.regs (cpu.getRs instr) + sext16 (cpu.getImm instr)) % M32) &&& 2 ^ 31) ≠ 0 :=
      fun hh => h2 ((sign_and_iff _ _).mp hh)
    norm_num at hc1 hc2
    simp [cpu.iADDI, hc1, hc2, cpu.raiseException, cpu.enterException]
  · intro instr s _ _ h1 h2
    have hc1 : ((s.regs (cpu.getRs instr) ^^^ s.regs (cpu.getRt instr)) &&& 2 ^ 31) ≠ 0 :=
      fun hh => h1 ((sign_and_iff _ _).mp hh)
    have hc2 : ((s.regs (cpu.getRs instr) ^^^
        (s.regs (cpu.getRs instr) + (M32 - s.regs (cpu.getRt instr))) % M32) &&& 2 ^ 31) ≠ 0 :=
      fun hh => h2 ((sign_and_iff _ _).mp hh)
    norm_num at hc1 hc2
    simp [cpu.iSUB, hc1, hc2, cpu.raiseException, cpu.enterException]

/-- A state with given rs/rt register contents for exercising the CPU
claims concretely. -/
def cpuStateWith (a b : Nat) : cpu.CPU :=
  { regs := fun i => if i = 1 then a else if i = 2 then b else 0
    pc := 0, npc := 4, cpc := 0
    inDelaySlot0 := false, inDelaySlot1 := false
    cop0 := { kuIEStack := 0, excCode := 0, bd := false, epc := 0,
              bev := false, badVAddr := 0 } }

/-- Witness for C1: concrete overflowing inputs for each of ADD
(2^31 + 2^31), ADDI (2^31 + 0xFFFF8000) and SUB (0 - 2^31). -/
theorem c1_add_sub_overflow_witness :
    ((cpu.iADD 0x00221820 (cpuStateWith (2 ^ 31) (2 ^ 31))).regs 3 =
        (cpuStateWith (2 ^ 31) (2 ^ 31)).regs 3 ∧
      (cpu.iADD 0x00221820 (cpuStateWith (2 ^ 31) (2 ^ 31))).cop0.excCode = cpu.ExcOverflow) ∧
    ((cpu.iADDI 0x20228000 (cpuStateWith (2 ^ 31) 0)).regs 2 =
        (cpuStateWith (2 ^ 31) 0).regs 2 ∧
      (cpu.iADDI 0x20228000 (cpuStateWith (2 ^ 31) 0)).cop0.excCode = cpu.ExcOverflow) ∧
    ((cpu.iSUB 0x00221822 (cpuStateWith 0 (2 ^ 31))).regs 3 =
        (cpuStateWith 0 (2 ^ 31)).regs 3 ∧
      (cpu.iSUB 0x00221822 (cpuStateWith 0 (2 ^ 31))).cop0.excCode = cpu.ExcOverflow) := by
  refine ⟨?_, ?_, ?_⟩
  · exact c1_add_sub_overflow.1 0x00221820 (cpuStateWith (2 ^ 31) (2 ^ 31))
      (by decide) (by decide) (by decide) (by decide)
  · exact c1_add_sub_overflow.2.1 0x20228000 (cpuStateWith (2 ^ 31) 0)
      (by decide) (by decide) (by decide)
  · exact c1_add_sub_overflow.2.2 0x00221822 (cpuStateWith 0 (2 ^ 31))
      (by decide) (by decide) (by decide) (by decide)

/- ---------------------------------------------------------------
   C6: DIV special cases
   --------------------------------------------------------------- -/

/-- C6: for every CPU state, DIV with divisor 0 produces quotient
LO = sign(n) * -1 (sign being -1 for negative, +1 for non-negative
dividends) and remainder HI = n; DIV of INT32_MIN by -1 produces
quotient INT32_MIN and remainder 0. -/
theorem c6_div_special_cases :
    (∀ (instr : Nat) (s : cpu.CPU),
      s.regs (cpu.getRs instr) < M32 →
      toInt32 (s.regs (cpu.getRt instr)) = 0 →
      toInt32 ((cpu.iDIV instr s).regs cpu.LO) =
          (if toInt32 (s.regs (cpu.getRs instr)) < 0 then (-1 : Int) else 1) * (-1) ∧
      toInt32 ((cpu.iDIV instr s).regs cpu.HI) = toInt32 (s.regs (cpu.getRs instr))) ∧
    (∀ (instr : Nat) (s : cpu.CPU),
      s.regs (cpu.getRs instr) = 2 ^ 31 →
      s.regs (cpu.getRt instr) = M32 - 1 →
      toInt32 ((cpu.iDIV instr s).regs cpu.LO) = -(2 ^ 31) ∧
      (cpu.iDIV instr s).regs cpu.HI = 0) := by
  constructor
  · intro instr s hlt hd
    simp only [cpu.iDIV]
    rw [if_pos hd]
    refine ⟨?_, ?_⟩
    · simp only [cpu.wr, cpu.LO, cpu.HI]
      norm_num
      by_cases hneg : toInt32 (s.regs (cpu.getRs instr)) < 0
      · rw [if_pos hneg, if_pos hneg]
        norm_num [toInt32]
      · rw [if_neg hneg, if_neg hneg]
        norm_num [toInt32, toU32, M32]
    · simp only [cpu.wr, cpu.LO, cpu.HI]
      norm_num
  · intro instr s hrs hrt
    have hd : ¬ toInt32 (s.regs (cpu.getRt instr)) = 0 := by
      rw [hrt]; norm_num [toInt32, M32]
    have hmin : toInt32 (s.regs (cpu.getRs instr)) = -(2 ^ 31) ∧
        toInt32 (s.regs (cpu.getRt instr)) = -1 := by
      rw [hrs, hrt]; norm_num [toInt32, M32]
    simp only [cpu.iDIV]
    rw [if_neg hd, if_pos hmin]
    refine ⟨?_, ?_⟩
    · simp only [cpu.wr, cpu.LO, cpu.HI]
      norm_num [toInt32, M32]
    · simp only [cpu.wr, cpu.LO, cpu.HI]
      norm_num

/-- Witness for C6: DIV 5 / 0 gives LO = -1, HI = 5; DIV of 2^31
(INT32_MIN) by 0xFFFFFFFF (-1) gives LO = INT32_MIN, HI = 0. -/
theorem c6_div_special_cases_witness :
    (toInt32 ((cpu.iDIV 0x220000 (cpuStateWith 5 0)).regs cpu.LO) =
        (if toInt32 ((cpuStateWith 5 0).regs (cpu.getRs 0x220000)) < 0 then (-1 : Int) else 1) *
          (-1) ∧
      toInt32 ((cpu.iDIV 0x220000 (cpuStateWith 5 0)).regs cpu.HI) =
        toInt32 ((cpuStateWith 5 0).regs (cpu.getRs 0x220000))) ∧
    (toInt32 ((cpu.iDIV 0x220000 (cpuStateWith (2 ^ 31) (M32 - 1))).regs cpu.LO) = -(2 ^ 31) ∧
      (cpu.iDIV 0x220000 (cpuStateWith (2 ^ 31) (M32 - 1))).regs cpu.HI = 0) :=
  ⟨c6_div_special_cases.1 0x220000 (cpuStateWith 5 0) (by decide) (by decide),
    c6_div_special_cases.2 0x220000 (cpuStateWith (2 ^ 31) (M32 - 1)) (by decide) (by decide)⟩

/- ---------------------------------------------------------------
   C2: processEvents semantics
   --------------------------------------------------------------- -/

/-- Decrement of one event by the elapsed cycle count. -/
def decEvent (elapsed : Int) (e : scheduler.Event) : scheduler.Event :=
  { e with cyclesUntilEvent := e.cyclesUntilEvent - elapsed }

/-- The drain loop computes: survivors are the decremented events with
nonzero counter, fired callbacks are the decremented events with
counter exactly zero, in queue order, each handed overshoot 0. -/
lemma drain_spec (elapsed : Int) (l : List scheduler.Event) :
    scheduler.drain elapsed l =
      ((l.map (decEvent elapsed)).filter (fun e => decide (e.cyclesUntilEvent ≠ 0)),
        ((l.map (decEvent elapsed)).filter (fun e => decide (e.cyclesUntilEvent = 0))).map
          (fun e => (e.id, e.param, (0 : Int)))) := by
  induction l with
  | nil => simp [scheduler.drain]
  | cons e rest ih =>
    by_cases hc : e.cyclesUntilEvent - elapsed = 0
    · simp [scheduler.drain, hc, ih, decEvent]
    · simp [scheduler.drain, hc, ih, decEvent]

/-- A scheduler state with one live event due in 64 cycles and one
staged event. -/
def c2State : scheduler.Sched :=
  { events := [⟨0, 0, 64⟩], nextEvents := [⟨1, 7, 100⟩], cyclesUntilNextEvent := 64 }

/-- Counterexample to C2 as stated: after `processEvents 64` on
`c2State` the drain has run (the live event fired), yet the staged
event has not been merged into the live queue — it still sits in the
staging queue, which only the separate `flush()` merges. -/
theorem c2_counterexample :
    (scheduler.processEvents 64 c2State).2 = [(0, 0, 0)] ∧
    (scheduler.processEvents 64 c2State).1.events = [] ∧
    ¬ (∃ e ∈ (scheduler.processEvents 64 c2State).1.events, e.id = 1) ∧
    (scheduler.processEvents 64 c2State).1.nextEvents = [⟨1, 7, 100⟩] := by
  refine ⟨by decide, by decide, ?_, by decide⟩
  intro h
  obtain ⟨e, he, _⟩ := h
  have hnil : (scheduler.processEvents 64 c2State).1.events = [] := by decide
  rw [hnil] at he
  exact List.not_mem_nil e he

/-- C2 (amended): `processEvents(elapsed)` decrements every live
event's counter by `elapsed`; exactly the events whose counter lands
on zero fire, in queue order, each removed from the live queue before
its callback runs and each callback receiving overshoot 0 (a skipped
deadline never fires); the staging queue is untouched — merging it
into the live queue is `flush()`'s job, not `processEvents`'. -/
theorem c2_process_events_amended (elapsed : Int) (s : scheduler.Sched)
    (_h : 0 < elapsed) :
    (scheduler.processEvents elapsed s).1.events =
      (s.events.map (decEvent elapsed)).filter (fun e => decide (e.cyclesUntilEvent ≠ 0)) ∧
    (scheduler.processEvents elapsed s).2 =
      ((s.events.map (decEvent elapsed)).filter (fun e => decide (e.cyclesUntilEvent = 0))).map
        (fun e => (e.id, e.param, (0 : Int))) ∧
    (scheduler.processEvents elapsed s).1.nextEvents = s.nextEvents ∧
    (∀ f ∈ (scheduler.processEvents elapsed s).2, f.2.2 = 0) ∧
    (∀ e ∈ (scheduler.processEvents elapsed s).1.events, e.cyclesUntilEvent ≠ 0) := by
  have hd := drain_spec elapsed s.events
  refine ⟨?_, ?_, rfl, ?_, ?_⟩
  · simp [scheduler.processEvents, hd]
  · simp [scheduler.processEvents, hd]
  · intro f hf
    simp only [scheduler.processEvents, hd] at hf
    simp only [List.mem_map] at hf
    obtain ⟨e, _, rfl⟩ := hf
    rfl
  · intro e he
    simp only [scheduler.processEvents, hd] at he
    have := List.of_mem_filter he
    simpa using this

/-- Witness for the amended C2 on `c2State` with elapsed 64. -/
theorem c2_process_events_amended_witness :
    (scheduler.processEvents 64 c2State).1.events =
      (c2State.events.map (decEvent 64)).filter (fun e => decide (e.cyclesUntilEvent ≠ 0)) ∧
    (scheduler.processEvents 64 c2State).2 =
      ((c2State.events.map (decEvent 64)).filter (fun e => decide (e.cyclesUntilEvent = 0))).map
        (fun e => (e.id, e.param, (0 : Int))) ∧
    (scheduler.processEvents 64 c2State).1.nextEvents = c2State.nextEvents ∧
    (∀ f ∈ (scheduler.processEvents 64 c2State).2, f.2.2 = 0) ∧
    (∀ e ∈ (scheduler.processEvents 64 c2State).1.events, e.cyclesUntilEvent ≠ 0) :=
  c2_process_events_amended 64 c2State (by decide)

/- ---------------------------------------------------------------
   C3: OTC reverse linked list
   --------------------------------------------------------------- -/

/-- A 32-bit decrement by 4 does not wrap when the value is at least
4. -/
lemma wrap_sub4 (m : Nat) (h4 : 4 ≤ m) (hm : m < M32) :
    (m + M32 - 4) % M32 = m - 4 := by
  have he : m + M32 - 4 = (m - 4) + M32 := by omega
  rw [he, Nat.add_mod_right, Nat.mod_eq_of_lt (by omega)]

/-- Unfolding of one OTC loop iteration when more than one word
remains. -/
lemma otcLoop_succ (m N : Nat) (hN : N ≠ 0) (h4 : 4 ≤ m) (hm : m < M32) :
    dmac.otcLoop m (N + 1) = (m, m - 4) :: dmac.otcLoop (m - 4) N := by
  have hw := wrap_sub4 m h4 hm
  simp only [dmac.otcLoop, hw]
  simp [hN]

/-- Writes at addresses different from `a` leave RAM at `a`
unchanged. -/
lemma applyWrites_preserve (ws : List (Nat × Nat)) :
    ∀ (r : Nat → Nat) (a : Nat), (∀ p ∈ ws, p.1 ≠ a) →
      dmac.applyWrites ws r a = r a := by
  induction ws with
  | nil => intro r a _; rfl
  | cons p rest ih =>
    intro r a h
    have h1 : p.1 ≠ a := h p (by simp)
    have hstep : dmac.applyWrites (p :: rest) r =
        dmac.applyWrites rest (dmac.ramWrite32 r p.1 p.2) := rfl
    rw [hstep, ih _ a (fun q hq => h q (by simp [hq]))]
    by_cases hlt : p.1 < 0x200000 <;>
      simp [dmac.ramWrite32, hlt, Function.update_apply, Ne.symm h1]

/-- Every address the OTC loop writes lies at or below its starting
address (no 32-bit wrap occurs when the burst fits below the start). -/
lemma otcLoop_addr_le (N : Nat) :
    ∀ m, 4 * (N - 1) ≤ m → m < M32 → ∀ p ∈ dmac.otcLoop m N, p.1 ≤ m := by
  induction N with
  | zero => intro m _ _ p hp; simp [dmac.otcLoop] at hp
  | succ N ih =>
    intro m hle hm p hp
    by_cases hN : N = 0
    · subst hN
      simp [dmac.otcLoop] at hp
      simp [hp]
    · have h4 : 4 ≤ m := by omega
      rw [otcLoop_succ m N hN h4 hm] at hp
      rcases List.mem_cons.mp hp with hhead | htail
      · rw [hhead]
      · have := ih (m - 4) (by omega) (by omega) p htail
        omega

/-- Final RAM contents after the OTC burst: every slot except the last
holds the address of the slot below it, the last slot holds the
terminator. -/
lemma otc_spec (N : Nat) :
    ∀ (m : Nat) (r : Nat → Nat), 1 ≤ N → 4 * (N - 1) ≤ m → m < 0x200000 →
      ((∀ k, k < N - 1 →
          dmac.applyWrites (dmac.otcLoop m N) r (m - 4 * k) = m - 4 * (k + 1)) ∧
        dmac.applyWrites (dmac.otcLoop m N) r (m - 4 * (N - 1)) = 0xFFFFFF) := by
  induction N with
  | zero => intro m r h; omega
  | succ N ih =>
    intro m r _ hle hlt
    by_cases hN : N = 0
    · subst hN
      refine ⟨fun k hk => by omega, ?_⟩
      simp [dmac.otcLoop, dmac.applyWrites, dmac.ramWrite32, hlt, Function.update_apply]
    · have hN1 : 1 ≤ N := Nat.one_le_iff_ne_zero.mpr hN
      have h4 : 4 ≤ m := by omega
      have hM32eq : M32 = 4294967296 := by norm_num [M32]
      have hm32 : m < M32 := by omega
      have hstep : dmac.applyWrites (dmac.otcLoop m (N + 1)) r =
          dmac.applyWrites (dmac.otcLoop (m - 4) N) (dmac.ramWrite32 r m (m - 4)) := by
        rw [otcLoop_succ m N hN h4 hm32]; rfl
      obtain ⟨ihA, ihB⟩ := ih (m - 4) (dmac.ramWrite32 r m (m - 4)) hN1 (by omega) (by omega)
      constructor
      · intro k hk
        rcases Nat.eq_zero_or_pos k with hk0 | hkpos
        · subst hk0
          rw [hstep]
          have hpres : dmac.applyWrites (dmac.otcLoop (m - 4) N)
              (dmac.ramWrite32 r m (m - 4)) m = dmac.ramWrite32 r m (m - 4) m := by
            refine applyWrites_preserve _ _ _ (fun p hp => ?_)
            have := otcLoop_addr_le N (m - 4) (by omega) (by omega) p hp
            omega
          simpa [dmac.ramWrite32, hlt, Function.update_apply] using hpres
        · have hk' : k - 1 < N - 1 := by omega
          have hv := ihA (k - 1) hk'
          rw [hstep]
          have e1 : m - 4 * k = (m - 4) - 4 * (k - 1) := by omega
          have e2 : (m - 4) - 4 * ((k - 1) + 1) = m - 4 * (k + 1) := by omega
          rw [e1, ← e2]
          exact hv
      · rw [hstep]
        have e : m - 4 * ((N + 1) - 1) = (m - 4) - 4 * (N - 1) := by omega
        rw [e]
        exact ihB

/-- C3: after an OTC burst of N >= 1 words starting at MADR = A
(decrementing, the burst staying inside RAM), the RAM word at address
A - 4k equals A - 4(k+1) for every k < N-1, and the last written word,
at A - 4(N-1), is the terminator 0xFFFFFF. -/
theorem c3_otc_reverse_list (A N : Nat) (ram : Nat → Nat)
    (hN : 1 ≤ N) (hlo : 4 * (N - 1) ≤ A) (hhi : A < 0x200000) :
    (∀ k, k < N - 1 → dmac.doOTC A N ram (A - 4 * k) = A - 4 * (k + 1)) ∧
    dmac.doOTC A N ram (A - 4 * (N - 1)) = 0xFFFFFF :=
  otc_spec N A ram hN hlo hhi

/-- Witness for C3: a 3-word OTC burst at address 0x100 produces
0x100 -> 0xFC -> 0xF8 -> terminator. -/
theorem c3_otc_reverse_list_witness :
    dmac.doOTC 0x100 3 (fun _ => 0) 0x100 = 0xFC ∧
    dmac.doOTC 0x100 3 (fun _ => 0) 0xFC = 0xF8 ∧
    dmac.doOTC 0x100 3 (fun _ => 0) 0xF8 = 0xFFFFFF := by
  have H := c3_otc_reverse_list 0x100 3 (fun _ => 0) (by norm_num) (by norm_num) (by norm_num)
  refine ⟨?_, ?_, ?_⟩
  · have := H.1 0 (by norm_num)
    norm_num at this
    exact this
  · have := H.1 1 (by norm_num)
    norm_num at this
    exact this
  · have := H.2
    norm_num at this
    exact this

/- ---------------------------------------------------------------
   C5: GPU scanline counter
   --------------------------------------------------------------- -/

/-- C5: starting from a line counter in [0, 262), a scanline event
increments it, raises VBLANK through the interrupt controller and
presents the framebuffer exactly when the counter reaches 240, resets
it to 0 exactly when it reaches 262, and leaves it in [0, 262). -/
theorem c5_scanline_counter (c : Int) (s : gpu.ScanState)
    (h0 : 0 ≤ s.lineCounter) (h1 : s.lineCounter < 262) :
    (0 ≤ (gpu.scanlineEvent c s).lineCounter ∧
      (gpu.scanlineEvent c s).lineCounter < 262) ∧
    (s.lineCounter + 1 = 240 →
      (gpu.scanlineEvent c s).iStat = intc.sendInterrupt intc.VBLANK s.iStat ∧
      (gpu.scanlineEvent c s).presented = true) ∧
    (s.lineCounter + 1 ≠ 240 →
      (gpu.scanlineEvent c s).iStat = s.iStat ∧
      (gpu.scanlineEvent c s).presented = false) ∧
    ((gpu.scanlineEvent c s).lineCounter = 0 ↔ s.lineCounter + 1 = 262) ∧
    (s.lineCounter + 1 ≠ 262 →
      (gpu.scanlineEvent c s).lineCounter = s.lineCounter + 1) := by
  by_cases h240 : s.lineCounter + 1 = 240
  · have h262 : s.lineCounter + 1 ≠ 262 := by omega
    simp [gpu.scanlineEvent, gpu.SCANLINES_PER_VDRAW, gpu.SCANLINES_PER_FRAME, h240, h262]
  · by_cases h262 : s.lineCounter + 1 = 262
    · simp [gpu.scanlineEvent, gpu.SCANLINES_PER_VDRAW, gpu.SCANLINES_PER_FRAME, h240, h262]
    · simp [gpu.scanlineEvent, gpu.SCANLINES_PER_VDRAW, gpu.SCANLINES_PER_FRAME, h240, h262]
      omega

/-- Witness for C5 at line counter 239 (the VBLANK line). -/
theorem c5_scanline_counter_witness :
    (0 ≤ (gpu.scanlineEvent 0 ⟨239, 0, timer.initTimer⟩).lineCounter ∧
      (gpu.scanlineEvent 0 ⟨239, 0, timer.initTimer⟩).lineCounter < 262) ∧
    ((239 : Int) + 1 = 240 →
      (gpu.scanlineEvent 0 ⟨239, 0, timer.initTimer⟩).iStat = intc.sendInterrupt intc.VBLANK 0 ∧
      (gpu.scanlineEvent 0 ⟨239, 0, timer.initTimer⟩).presented = true) ∧
    ((239 : Int) + 1 ≠ 240 →
      (gpu.scanlineEvent 0 ⟨239, 0, timer.initTimer⟩).iStat = 0 ∧
      (gpu.scanlineEvent 0 ⟨239, 0, timer.initTimer⟩).presented = false) ∧
    ((gpu.scanlineEvent 0 ⟨239, 0, timer.initTimer⟩).lineCounter = 0 ↔ (239 : Int) + 1 = 262) ∧
    ((239 : Int) + 1 ≠ 262 →
      (gpu.scanlineEvent 0 ⟨239, 0, timer.initTimer⟩).lineCounter = 239 + 1) :=
  c5_scanline_counter 0 ⟨239, 0, timer.initTimer⟩ (by decide) (by decide)

/- ---------------------------------------------------------------
   C7 / C10: timer MODE write and the E4 scenario
   --------------------------------------------------------------- -/

/-- State of the three timers after `timer::init()`. -/
def initTimers : timer.Timers := ⟨timer.initTimer, timer.initTimer, timer.initTimer⟩

/-- The E4 scenario of the spec run against the code: write MODE =
0x0100 to timer 2 (address 0x1F801124), write COMP = 0x0008
(address 0x1F801128), then step the timers by 80 CPU cycles.  Returns
the timers and whether any INTC interrupt was raised.  The fallback
arms are unreachable: both writes succeed. -/
def e4Run : timer.Timers × Bool :=
  match timer.write 0x1F801124 0x0100 initTimers with
  | none => (initTimers, true)
  | some ts1 =>
    match timer.write 0x1F801128 0x0008 ts1 with
    | none => (initTimers, true)
    | some ts2 => timer.step 80 ts2

/-- Counterexample to C7 as stated: the E4 scenario leaves timer 2's
COUNT at 79, not 10 (MODE clks = 1 selects the raw system clock; only
clks = 2, 3 select the /8 prescaler on timer 2). -/
theorem c7_counterexample :
    e4Run.1.t2.count = 79 ∧ ¬ e4Run.1.t2.count = 10 := by decide

/-- C7 (amended): the E4 scenario (MODE = 0x0100, COMP = 0x0008,
80 CPU cycles) leaves timer 2's COUNT at 79 — clks = 1 keeps the
prescaler at 1, and the strict `subcount > prescaler` loop guard
consumes one residual subtick — and raises no compare interrupt
(CMPE is off). -/
theorem c7_timer2_e4_amended :
    e4Run.1.t2.count = 79 ∧ e4Run.2 = false := by decide

/-- Every successful MODE write (first revision) leaves COUNT = 0,
subcount = 0 and INTF set. -/
lemma writeMODE_resets (chn data : Nat) (t t' : timer.Timer)
    (h : timer.writeMODE chn data t = some t') :
    t'.count = 0 ∧ t'.subcount = 0 ∧ t'.mode.intf = true := by
  simp only [timer.writeMODE, Option.bind_eq_some, Option.some.injEq] at h
  obtain ⟨paused, _, pres, _, h⟩ := h
  subst h
  exact ⟨rfl, rfl, rfl⟩

/-- Every successful MODE write (second revision) leaves COUNT = 0,
subcount = 0 and INTF set. -/
lemma writeMODEv2_resets (chn data : Nat) (t t' : timer.Timer)
    (h : timer.writeMODEv2 chn data t = some t') :
    t'.count = 0 ∧ t'.subcount = 0 ∧ t'.mode.intf = true := by
  simp only [timer.writeMODEv2] at h
  by_cases hg : (timer.decodeMode data t.mode).gate
  · simp [hg] at h
  · simp only [hg, if_false, Bool.false_eq_true, if_neg, not_false_iff,
      Option.bind_eq_some, Option.some.injEq] at h
    obtain ⟨pres, _, h⟩ := h
    subst h
    exact ⟨rfl, rfl, rfl⟩

/-- Reading back the channel just stored. -/
lemma getT_setT (ts : timer.Timers) (chn : Nat) (t : timer.Timer) :
    timer.getT (timer.setT ts chn t) chn = t := by
  match chn with
  | 0 => rfl
  | 1 => rfl
  | n + 2 => rfl

/-- C10: any successful 16-bit write to a timer's MODE register (in
either revision of timer.cpp) leaves that timer's COUNT at 0, its
prescaler sub-counter at 0, and its interrupt flag INTF set to 1. -/
theorem c10_mode_write_side_effects :
    (∀ (addr data : Nat) (ts ts' : timer.Timers) (chn : Nat),
      timer.getTimer addr = some chn →
      timer.regSel addr = 0x1F801104 →
      timer.write addr data ts = some ts' →
      (timer.getT ts' chn).count = 0 ∧ (timer.getT ts' chn).subcount = 0 ∧
        (timer.getT ts' chn).mode.intf = true) ∧
    (∀ (addr data : Nat) (ts ts' : timer.Timers) (chn : Nat),
      timer.getTimer addr = some chn →
      timer.regSel addr = 0x1F801104 →
      timer.writev2 addr data ts = some ts' →
      (timer.getT ts' chn).count = 0 ∧ (timer.getT ts' chn).subcount = 0 ∧
        (timer.getT ts' chn).mode.intf = true) := by
  constructor
  · intro addr data ts ts' chn hchn hsel hw
    simp only [timer.write, hchn, timer.writeReg, hsel, Option.bind_eq_some,
      Option.some.injEq] at hw
    norm_num at hw
    obtain ⟨t, ht, rfl⟩ := hw
    rw [getT_setT]
    exact writeMODE_resets chn (data % M16) (timer.getT ts chn) t ht
  · intro addr data ts ts' chn hchn hsel hw
    simp only [timer.writev2, hchn, timer.writeRegv2, hsel, Option.bind_eq_some,
      Option.some.injEq] at hw
    norm_num at hw
    obtain ⟨t, ht, rfl⟩ := hw
    rw [getT_setT]
    exact writeMODEv2_resets chn (data % M16) (timer.getT ts chn) t ht

/-- Witness for C10: MODE writes of 0xFFFF (first revision, timer 2)
and 0x0354 (second revision, timer 2, no gate) both reset COUNT and
subcount and set INTF. -/
theorem c10_mode_write_side_effects_witness :
    ((timer.getT ((timer.write 0x1F801124 0xFFFF initTimers).getD initTimers) 2).count = 0 ∧
      (timer.getT ((timer.write 0x1F801124 0xFFFF initTimers).getD initTimers) 2).subcount = 0 ∧
      (timer.getT ((timer.write 0x1F801124 0xFFFF initTimers).getD initTimers) 2).mode.intf = true) ∧
    ((timer.getT ((timer.writev2 0x1F801124 0x0354 initTimers).getD initTimers) 2).count = 0 ∧
      (timer.getT ((timer.writev2 0x1F801124 0x0354 initTimers).getD initTimers) 2).subcount = 0 ∧
      (timer.getT ((timer.writev2 0x1F801124 0x0354 initTimers).getD initTimers) 2).mode.intf = true) :=
  ⟨c10_mode_write_side_effects.1 0x1F801124 0xFFFF initTimers
      ((timer.write 0x1F801124 0xFFFF initTimers).getD initTimers) 2
      (by decide) (by decide) (by decide),
    c10_mode_write_side_effects.2 0x1F801124 0x0354 initTimers
      ((timer.writev2 0x1F801124 0x0354 initTimers).getD initTimers) 2
      (by decide) (by decide) (by decide)⟩

/- ---------------------------------------------------------------
   C9: RAM mirroring on the bus
   --------------------------------------------------------------- -/

/-- The bus state right after `bus::init`: zeroed memories, expansion
bases at their reset value 0x1F000000, expansion sizes 0. -/
def bus0 : bus.Bus :=
  { ram := fun _ => 0, spram := fun _ => 0, bios := fun _ => 0
    exp1Base := 0x1F000000, exp1Size := 0
    exp2Base := 0x1F000000, exp2Size := 0 }

/-- Counterexample to C9 as stated: at address 0x200000 — inside the
claimed 8 MiB mirror window — an 8-bit read does not return RAM at
0x200000 mod 0x200000 = 0; it falls through to the fatal unhandled
default, and an 8-bit write likewise.  The 2 MiB of RAM is not
mirrored. -/
theorem c9_counterexample :
    bus.read8 bus0 0x200000 = bus.Read8Result.fatal ∧
    bus.read8 bus0 0x200000 ≠ bus.Read8Result.val (bus0.ram (0x200000 % 0x200000)) ∧
    bus.write8 bus0 0x200000 0xAB = none := by
  refine ⟨rfl, by decide, rfl⟩

/-- C9 (amended): RAM is served by the byte-access bus dispatch only
for addresses below 0x200000, where a read returns the RAM byte at the
address itself (equal to the address mod 0x200000) and a write stores
to it; every address in [0x200000, 0x800000) reaches no region and is
the fatal unhandled default.  The expansion-region bases never leave
[0x1F000000, ..), so they cannot capture these addresses. -/
theorem c9_ram_not_mirrored (st : bus.Bus) (a d : Nat)
    (h1 : 0x1F000000 ≤ st.exp1Base) (h2 : 0x1F000000 ≤ st.exp2Base) :
    (a < 0x200000 →
      bus.read8 st a = bus.Read8Result.val (st.ram (a % 0x200000)) ∧
      bus.write8 st a d = some { st with ram := Function.update st.ram a d }) ∧
    (0x200000 ≤ a → a < 0x800000 →
      bus.read8 st a = bus.Read8Result.fatal ∧
      bus.write8 st a d = none) := by
  constructor
  · intro ha
    have e1 : ¬ st.exp1Base ≤ a := by omega
    have e2 : ¬ st.exp2Base ≤ a := by omega
    rw [Nat.mod_eq_of_lt ha]
    constructor
    · simp [bus.read8, bus.inRange, e1, ha]
    · simp [bus.write8, bus.inRange, e2, ha]
  · intro hlo hhi
    have e1 : ¬ st.exp1Base ≤ a := by omega
    have e2 : ¬ st.exp2Base ≤ a := by omega
    have hram : ¬ a < 0x200000 := by omega
    have hsp : ¬ (0x1F800000 ≤ a) := by omega
    have hsio : ¬ (0x1F801040 ≤ a) := by omega
    have hdma : ¬ (0x1F801080 ≤ a) := by omega
    have hbios : ¬ (0x1FC00000 ≤ a) := by omega
    have hcd : ¬ (a = 0x1F801800 ∨ a = 0x1F801801 ∨ a = 0x1F801802 ∨ a = 0x1F801803) := by
      omega
    constructor
    · simp [bus.read8, bus.inRange, e1, hram, hsp, hsio, hdma, hbios, hcd]
    · simp [bus.write8, bus.inRange, e2, hram, hsp, hsio, hdma, hcd]

/-- Witness for the amended C9 at the in-RAM address 0x123 and the
unhandled mirror address 0x300000. -/
theorem c9_ram_not_mirrored_witness :
    ((0x123 : Nat) < 0x200000 →
      bus.read8 bus0 0x123 = bus.Read8Result.val (bus0.ram (0x123 % 0x200000)) ∧
      bus.write8 bus0 0x123 0x7 = some { bus0 with ram := Function.update bus0.ram 0x123 0x7 }) ∧
    ((0x200000 : Nat) ≤ 0x300000 → (0x300000 : Nat) < 0x800000 →
      bus.read8 bus0 0x300000 = bus.Read8Result.fatal ∧
      bus.write8 bus0 0x300000 0x7 = none) :=
  ⟨(c9_ram_not_mirrored bus0 0x123 0x7 (by decide) (by decide)).1,
    (c9_ram_not_mirrored bus0 0x300000 0x7 (by decide) (by decide)).2⟩

/- ---------------------------------------------------------------
   C8: CDROM IRQ queueing and acknowledge
   --------------------------------------------------------------- -/

/-- C8: for the CDROM commands that queue two interrupt responses
(GetID and Init, both INT3 then INT2), the later class is never the
value of the interrupt-flag register before software acknowledges:
with no IFR write, the register reads 0 or 3, never 2, at every time;
and an IFR acknowledge write ANDs the inverse of the written pattern
into the flags, leaving untouched any flag bit not written (flag state
fits in the low five bits). -/
theorem c8_cdrom_irq_visibility :
    (∀ t : Nat, cdrom.iFlagsAt cdrom.getIDIRQs t 0 ≠ 2 ∧
      cdrom.iFlagsAt cdrom.initIRQs t 0 ≠ 2) ∧
    (∀ d f : Nat, f < 0x20 → ∀ i : Nat,
      (cdrom.ackIFR d f).testBit i = (f.testBit i && !(d.testBit i))) := by
  constructor
  · intro t
    constructor
    · by_cases h2 : 50000 ≤ t
      · have h1 : 30000 ≤ t := by omega
        simp [cdrom.iFlagsAt, cdrom.getIDIRQs, cdrom.sendIRQEvent, h1, h2]
      · by_cases h1 : 30000 ≤ t <;>
          simp [cdrom.iFlagsAt, cdrom.getIDIRQs, cdrom.sendIRQEvent, h1, h2]
    · by_cases h2 : 110000 ≤ t
      · have h1 : 80000 ≤ t := by omega
        simp [cdrom.iFlagsAt, cdrom.initIRQs, cdrom.sendIRQEvent, h1, h2]
      · by_cases h1 : 80000 ≤ t <;>
          simp [cdrom.iFlagsAt, cdrom.initIRQs, cdrom.sendIRQEvent, h1, h2]
  · intro d f hf i
    by_cases hi : i < 5
    · have h31 : (0x1F : Nat) = 2 ^ 5 - 1 := by norm_num
      simp only [cdrom.ackIFR, h31, Nat.testBit_land, Nat.testBit_xor,
        Nat.testBit_two_pow_sub_one]
      cases hfb : f.testBit i <;> cases hdb : d.testBit i <;> simp [hi]
    · have hge : 5 ≤ i := by omega
      have hpow : (2 : Nat) ^ 5 ≤ 2 ^ i := Nat.pow_le_pow_right (by norm_num) hge
      have hf5 : f.testBit i = false :=
        Nat.testBit_lt_two_pow (lt_of_lt_of_le hf hpow)
      simp [cdrom.ackIFR, Nat.testBit_land, hf5]

/-- Witness for C8: at t = 50000 both INT3 and INT2 of GetID have
fired yet the IFR reads 3, not 2; acknowledging with pattern 7 clears
flag bit 1 while a zero pattern bit leaves a flag bit alone. -/
theorem c8_cdrom_irq_visibility_witness :
    (cdrom.iFlagsAt cdrom.getIDIRQs 50000 0 ≠ 2 ∧
      cdrom.iFlagsAt cdrom.initIRQs 50000 0 ≠ 2) ∧
    (cdrom.ackIFR 7 3).testBit 1 = ((3 : Nat).testBit 1 && !((7 : Nat).testBit 1)) ∧
    (cdrom.ackIFR 0x18 3).testBit 1 = ((3 : Nat).testBit 1 && !((0x18 : Nat).testBit 1)) :=
  ⟨c8_cdrom_irq_visibility.1 50000,
    c8_cdrom_irq_visibility.2 7 3 (by decide) 1,
    c8_cdrom_irq_visibility.2 0x18 3 (by decide) 1⟩

/- ---------------------------------------------------------------
   C4: rasterizer clipping
   --------------------------------------------------------------- -/

/-- Membership in the model of a C++ `for (v = lo; v < hi; v++)` loop
gives the loop bounds. -/
lemma mem_intRange {lo hi x : Int} (h : x ∈ gpu.intRange lo hi) : lo ≤ x ∧ x < hi := by
  rw [gpu.intRange, List.mem_map] at h
  obtain ⟨n, hn, rfl⟩ := h
  rw [List.mem_range] at hn
  omega

/-- Every pixel a flat triangle draws lies in the clipped bounding
box. -/
lemma drawFlatTri_mem {area : gpu.XYArea} {ofs : gpu.XYOffset} {v0 v1 v2 : gpu.Vertex}
    {color : Nat} {x y : Int} {c : Nat}
    (h : (x, y, c) ∈ gpu.drawFlatTri area ofs v0 v1 v2 color) :
    area.x0 ≤ x ∧ x < area.x1 ∧ area.y0 ≤ y ∧ y < area.y1 := by
  simp only [gpu.drawFlatTri, List.mem_flatMap, List.mem_filterMap,
    Option.ite_none_right_eq_some, Prod.mk.injEq] at h
  obtain ⟨py, hpy, px, hpx, _, rfl, rfl, _⟩ := h
  have h1 := mem_intRange hpx
  have h2 := mem_intRange hpy
  omega

/-- Every pixel a Gouraud triangle draws lies in the clipped bounding
box. -/
lemma drawShadedTri_mem {area : gpu.XYArea} {ofs : gpu.XYOffset} {v0 v1 v2 : gpu.Vertex}
    {x y : Int} {c : Nat}
    (h : (x, y, c) ∈ gpu.drawShadedTri area ofs v0 v1 v2) :
    area.x0 ≤ x ∧ x < area.x1 ∧ area.y0 ≤ y ∧ y < area.y1 := by
  simp only [gpu.drawShadedTri, List.mem_flatMap, List.mem_filterMap,
    Option.ite_none_right_eq_some, Prod.mk.injEq] at h
  obtain ⟨py, hpy, px, hpx, _, rfl, rfl, _⟩ := h
  have h1 := mem_intRange hpx
  have h2 := mem_intRange hpy
  omega

/-- Every pixel a textured triangle draws lies in the clipped bounding
box. -/
lemma drawTexturedTri_mem {vram : Nat → Nat} {tw : gpu.TexWindow} {area : gpu.XYArea}
    {ofs : gpu.XYOffset} {v0 v1 v2 : gpu.Vertex} {clut texPage : Nat} {x y : Int} {c : Nat}
    (h : (x, y, c) ∈ gpu.drawTexturedTri vram tw area ofs v0 v1 v2 clut texPage) :
    area.x0 ≤ x ∧ x < area.x1 ∧ area.y0 ≤ y ∧ y < area.y1 := by
  simp only [gpu.drawTexturedTri, List.mem_flatMap, List.mem_filterMap,
    Option.ite_none_right_eq_some, Option.ite_none_left_eq_some, Prod.mk.injEq] at h
  obtain ⟨py, hpy, px, hpx, _, _, rfl, rfl, _⟩ := h
  have h1 := mem_intRange hpx
  have h2 := mem_intRange hpy
  omega

/-- Every pixel a flat rectangle draws lies in the clipped box. -/
lemma drawFlatRect_mem {area : gpu.XYArea} {ofs : gpu.XYOffset} {v : gpu.Vertex}
    {wv hv : Int} {color : Nat} {x y : Int} {c : Nat}
    (h : (x, y, c) ∈ gpu.drawFlatRect area ofs v wv hv color) :
    area.x0 ≤ x ∧ x < area.x1 ∧ area.y0 ≤ y ∧ y < area.y1 := by
  simp only [gpu.drawFlatRect, List.mem_flatMap, List.mem_map, Prod.mk.injEq] at h
  obtain ⟨py, hpy, px, hpx, rfl, rfl, _⟩ := h
  have h1 := mem_intRange hpx
  have h2 := mem_intRange hpy
  omega

/-- Every pixel a textured rectangle draws lies in the clipped box. -/
lemma drawTexturedRect_mem {vram : Nat → Nat} {tw : gpu.TexWindow} {area : gpu.XYArea}
    {ofs : gpu.XYOffset} {v : gpu.Vertex} {wv hv : Int} {clut dm : Nat} {x y : Int} {c : Nat}
    (h : (x, y, c) ∈ gpu.drawTexturedRect vram tw area ofs v wv hv clut dm) :
    area.x0 ≤ x ∧ x < area.x1 ∧ area.y0 ≤ y ∧ y < area.y1 := by
  simp only [gpu.drawTexturedRect, List.mem_flatMap, List.mem_filterMap,
    Option.ite_none_left_eq_some, Prod.mk.injEq] at h
  obtain ⟨py, hpy, px, hpx, _, rfl, rfl, _⟩ := h
  have h1 := mem_intRange hpx
  have h2 := mem_intRange hpy
  omega

/-- C4: with the drawing area inside VRAM (as every GP0(E3)/GP0(E4)
write leaves it — final two conjuncts), every pixel written by a flat,
Gouraud or textured triangle or by a flat or textured rectangle lies
inside the clip window [x0..x1] x [y0..y1] and inside the 1024 x 512
VRAM bounds. -/
theorem c4_gpu_clip (area : gpu.XYArea)
    (hx0 : 0 ≤ area.x0) (hx1 : area.x1 ≤ 1023)
    (hy0 : 0 ≤ area.y0) (hy1 : area.y1 ≤ 511) :
    (∀ (ofs : gpu.XYOffset) (v0 v1 v2 : gpu.Vertex) (color : Nat) (x y : Int) (c : Nat),
      (x, y, c) ∈ gpu.drawFlatTri area ofs v0 v1 v2 color →
      (area.x0 ≤ x ∧ x ≤ area.x1 ∧ area.y0 ≤ y ∧ y ≤ area.y1) ∧
      (0 ≤ x ∧ x < 1024 ∧ 0 ≤ y ∧ y < 512)) ∧
    (∀ (ofs : gpu.XYOffset) (v0 v1 v2 : gpu.Vertex) (x y : Int) (c : Nat),
      (x, y, c) ∈ gpu.drawShadedTri area ofs v0 v1 v2 →
      (area.x0 ≤ x ∧ x ≤ area.x1 ∧ area.y0 ≤ y ∧ y ≤ area.y1) ∧
      (0 ≤ x ∧ x < 1024 ∧ 0 ≤ y ∧ y < 512)) ∧
    (∀ (vram : Nat → Nat) (tw : gpu.TexWindow) (ofs : gpu.XYOffset)
        (v0 v1 v2 : gpu.Vertex) (clut texPage : Nat) (x y : Int) (c : Nat),
      (x, y, c) ∈ gpu.drawTexturedTri vram tw area ofs v0 v1 v2 clut texPage →
      (area.x0 ≤ x ∧ x ≤ area.x1 ∧ area.y0 ≤ y ∧ y ≤ area.y1) ∧
      (0 ≤ x ∧ x < 1024 ∧ 0 ≤ y ∧ y < 512)) ∧
    (∀ (ofs : gpu.XYOffset) (v : gpu.Vertex) (wv hv : Int) (color : Nat) (x y : Int) (c : Nat),
      (x, y, c) ∈ gpu.drawFlatRect area ofs v wv hv color →
      (area.x0 ≤ x ∧ x ≤ area.x1 ∧ area.y0 ≤ y ∧ y ≤ area.y1) ∧
      (0 ≤ x ∧ x < 1024 ∧ 0 ≤ y ∧ y < 512)) ∧
    (∀ (vram : Nat → Nat) (tw : gpu.TexWindow) (ofs : gpu.XYOffset) (v : gpu.Vertex)
        (wv hv : Int) (clut dm : Nat) (x y : Int) (c : Nat),
      (x, y, c) ∈ gpu.drawTexturedRect vram tw area ofs v wv hv clut dm →
      (area.x0 ≤ x ∧ x ≤ area.x1 ∧ area.y0 ≤ y ∧ y ≤ area.y1) ∧
      (0 ≤ x ∧ x < 1024 ∧ 0 ≤ y ∧ y < 512)) ∧
    (∀ (data : Nat) (a : gpu.XYArea),
      0 ≤ (gpu.setDrawAreaTopLeft data a).x0 ∧ (gpu.setDrawAreaTopLeft data a).x0 ≤ 1023 ∧
      0 ≤ (gpu.setDrawAreaTopLeft data a).y0 ∧ (gpu.setDrawAreaTopLeft data a).y0 ≤ 511) ∧
    (∀ (data : Nat) (a : gpu.XYArea),
      0 ≤ (gpu.setDrawAreaBottomRight data a).x1 ∧
      (gpu.setDrawAreaBottomRight data a).x1 ≤ 1023 ∧
      0 ≤ (gpu.setDrawAreaBottomRight data a).y1 ∧
      (gpu.setDrawAreaBottomRight data a).y1 ≤ 511) := by
  refine ⟨?_, ?_, ?_, ?_, ?_, ?_, ?_⟩
  · intro ofs v0 v1 v2 color x y c h
    have := drawFlatTri_mem h
    omega
  · intro ofs v0 v1 v2 x y c h
    have := drawShadedTri_mem h
    omega
  · intro vram tw ofs v0 v1 v2 clut texPage x y c h
    have := drawTexturedTri_mem h
    omega
  · intro ofs v wv hv color x y c h
    have := drawFlatRect_mem h
    omega
  · intro vram tw ofs v wv hv clut dm x y c h
    have := drawTexturedRect_mem h
    omega
  · intro data a
    have hx : (data >>> 0) &&& 0x3FF ≤ 0x3FF := Nat.and_le_right
    have hy : (data >>> 10) &&& 0x1FF ≤ 0x1FF := Nat.and_le_right
    simp only [gpu.setDrawAreaTopLeft]
    omega
  · intro data a
    have hx : (data >>> 0) &&& 0x3FF ≤ 0x3FF := Nat.and_le_right
    have hy : (data >>> 10) &&& 0x1FF ≤ 0x1FF := Nat.and_le_right
    simp only [gpu.setDrawAreaBottomRight]
    omega

/-- A concrete drawing area for exercising C4. -/
def c4Area : gpu.XYArea := ⟨0, 100, 0, 100⟩

/-- Witness for C4: the right triangle (0,0)-(10,0)-(0,10) and the
2 x 2 rectangle at the origin, drawn flat, shaded and textured inside
the 100 x 100 clip window, produce the pixel (0,0), which the theorem
places inside the window and inside VRAM. -/
theorem c4_gpu_clip_witness :
    ((c4Area.x0 ≤ 0 ∧ (0 : Int) ≤ c4Area.x1 ∧ c4Area.y0 ≤ 0 ∧ (0 : Int) ≤ c4Area.y1) ∧
      ((0 : Int) ≤ 0 ∧ (0 : Int) < 1024 ∧ (0 : Int) ≤ 0 ∧ (0 : Int) < 512)) ∧
    ((c4Area.x0 ≤ 0 ∧ (0 : Int) ≤ c4Area.x1 ∧ c4Area.y0 ≤ 0 ∧ (0 : Int) ≤ c4Area.y1) ∧
      ((0 : Int) ≤ 0 ∧ (0 : Int) < 1024 ∧ (0 : Int) ≤ 0 ∧ (0 : Int) < 512)) ∧
    ((c4Area.x0 ≤ 0 ∧ (0 : Int) ≤ c4Area.x1 ∧ c4Area.y0 ≤ 0 ∧ (0 : Int) ≤ c4Area.y1) ∧
      ((0 : Int) ≤ 0 ∧ (0 : Int) < 1024 ∧ (0 : Int) ≤ 0 ∧ (0 : Int) < 512)) ∧
    ((c4Area.x0 ≤ 0 ∧ (0 : Int) ≤ c4Area.x1 ∧ c4Area.y0 ≤ 0 ∧ (0 : Int) ≤ c4Area.y1) ∧
      ((0 : Int) ≤ 0 ∧ (0 : Int) < 1024 ∧ (0 : Int) ≤ 0 ∧ (0 : Int) < 512)) ∧
    ((c4Area.x0 ≤ 0 ∧ (0 : Int) ≤ c4Area.x1 ∧ c4Area.y0 ≤ 0 ∧ (0 : Int) ≤ c4Area.y1) ∧
      ((0 : Int) ≤ 0 ∧ (0 : Int) < 1024 ∧ (0 : Int) ≤ 0 ∧ (0 : Int) < 512)) ∧
    (0 ≤ (gpu.setDrawAreaTopLeft 0x12345 c4Area).x0 ∧
      (gpu.setDrawAreaTopLeft 0x12345 c4Area).x0 ≤ 1023 ∧
      0 ≤ (gpu.setDrawAreaTopLeft 0x12345 c4Area).y0 ∧
      (gpu.setDrawAreaTopLeft 0x12345 c4Area).y0 ≤ 511) ∧
    (0 ≤ (gpu.setDrawAreaBottomRight 0x12345 c4Area).x1 ∧
      (gpu.setDrawAreaBottomRight 0x12345 c4Area).x1 ≤ 1023 ∧
      0 ≤ (gpu.setDrawAreaBottomRight 0x12345 c4Area).y1 ∧
      (gpu.setDrawAreaBottomRight 0x12345 c4Area).y1 ≤ 511) := by
  have H := c4_gpu_clip c4Area (by decide) (by decide) (by decide) (by decide)
  refine ⟨?_, ?_, ?_, ?_, ?_, ?_, ?_⟩
  · exact H.1 ⟨0, 0⟩ ⟨0, 0, 0, 0⟩ ⟨10, 0, 0, 0⟩ ⟨0, 10, 0, 0⟩ 0 0 0 0 (by decide)
  · exact H.2.1 ⟨0, 0⟩ ⟨0, 0, 0, 0⟩ ⟨10, 0, 0, 0⟩ ⟨0, 10, 0, 0⟩ 0 0 0 (by decide)
  · exact H.2.2.1 (fun _ => 1) ⟨0, 0, 0, 0⟩ ⟨0, 0⟩ ⟨0, 0, 0, 0⟩ ⟨10, 0, 0, 0⟩ ⟨0, 10, 0, 0⟩
      0 0x100 0 0 1 (by decide)
  · exact H.2.2.2.1 ⟨0, 0⟩ ⟨0, 0, 0, 0⟩ 2 2 5 0 0 5 (by decide)
  · exact H.2.2.2.2.1 (fun _ => 1) ⟨0, 0, 0, 0⟩ ⟨0, 0⟩ ⟨0, 0, 0, 0⟩ 2 2 0 0x100 0 0 1
      (by decide)
  · exact H.2.2.2.2.2.1 0x12345 c4Area
  · exact H.2.2.2.2.2.2 0x12345 c4Area
